import Mathlib

/-!
Shallow embedding of the Symptom-Interview-Agent Flask application
(src/app.py) and verification of the specification's claims about it.

The external LLM (CrewAI kickoff calls) and Python's json.loads are
opaque boundaries: they are passed in as function parameters
(`String → Except String String` for a model call that may raise, and
`String → Except String JsonVal` for JSON parsing that may raise), so
every theorem quantifies over all possible model responses and parser
behaviours.  All other logic — state, turn counting, topic selection,
fence stripping, error absorption, endpoint control flow — is
translated directly from the source.
-/

namespace App

/-- Roles of a conversation turn, as used in src/app.py history items. -/
inductive Role where
  | User
  | Agent
  | System
deriving DecidableEq, Repr

/-- One history item: a dict with keys role and text in the source. -/
structure Turn where
  role : Role
  text : String
deriving DecidableEq, Repr

/-- The global interview_context dict (src/app.py lines 31-36). -/
structure Ctx where
  interview_id : Nat
  conversation_history : List Turn
  is_complete : Bool
  initial_symptom : Option String
deriving DecidableEq, Repr

/-- Initial value of the global interview_context at process start. -/
def interview_context : Ctx :=
  { interview_id := 1
  , conversation_history := []
  , is_complete := false
  , initial_symptom := none }

/-- A JSON value, the result type of json.loads. -/
inductive JsonVal where
  | null
  | bool (b : Bool)
  | num (n : Int)
  | str (s : String)
  | arr (xs : List JsonVal)
  | obj (fields : List (String × JsonVal))

/-- Look up a key in a JSON object; none on other values or a missing key. -/
def json_lookup (j : JsonVal) (k : String) : Option JsonVal :=
  match j with
  | JsonVal.obj fields =>
    match fields.find? (fun p => p.1 == k) with
    | some p => some p.2
    | none => none
  | _ => none

/-- Rendering of a role in the transcript prompt, matching item['role']. -/
def role_str : Role → String
  | Role.User => "User"
  | Role.Agent => "Agent"
  | Role.System => "System"

/-- Python f-string rendering of initial_symptom, which may be None. -/
def py_str_opt : Option String → String
  | none => "None"
  | some s => s

/-- Drop leading whitespace characters from a character list. -/
def drop_leading_ws : List Char → List Char
  | [] => []
  | c :: rest => if c.isWhitespace then drop_leading_ws rest else c :: rest

/-- Python str.strip with no argument: remove leading and trailing
whitespace.  Defined by structural recursion so the kernel can evaluate
it on concrete strings. -/
def py_strip (s : String) : String :=
  String.mk ((drop_leading_ws (drop_leading_ws s.data).reverse).reverse)

/-- The newline-joined transcript rendering used in both prompts. -/
def format_history (history : List Turn) : String :=
  String.intercalate "\n" (history.map (fun item => role_str item.role ++ ": " ++ item.text))

/-- Number of history items whose role is User (src/app.py lines 130, 239). -/
def user_turn_count (history : List Turn) : Nat :=
  (history.filter (fun item => item.role == Role.User)).length

/-- The fixed ordered interview steps (src/app.py lines 123-128). -/
def interview_steps : List String :=
  [ "What is the exact location, quality (e.g., sharp, dull), and severity (on a scale of 1-10) of the symptom?"
  , "When did this symptom first start, and how has it changed over time (e.g., constant, intermittent)?"
  , "What makes the symptom better, and what makes it worse?"
  , "Are you experiencing any other related symptoms, even minor ones?" ]

/-- The fixed closing prompt returned without a model call (line 140). -/
def closing_question : String :=
  "Is there anything else you think is important for a doctor to know about this symptom or your overall health right now?"

/-- The fixed apology returned when the question model call raises (line 166). -/
def error_fallback_question : String :=
  "I apologize, an error occurred. Can you please summarize your symptoms one more time?"

/-- The templated opening question of start_interview (line 199). -/
def opening_question (initial_symptom : String) : String :=
  "Thank you for sharing your symptom: \x27" ++ initial_symptom ++
    "\x27. To begin, can you tell me when you first noticed this symptom?"

/-- The System turn appended when the interview completes (lines 247-250). -/
def completion_message : String :=
  "The interview is complete. Thank you for your patience. I have generated a structured report for review. Please find the JSON report below."

/-- The question Task description f-string (src/app.py lines 143-155). -/
def question_task_description (history : List Turn) (initial_symptom : Option String)
    (next_q : String) : String :=
  String.intercalate "\n"
    [ ""
    , "        Based on the history and the initial symptom (\x27" ++ py_str_opt initial_symptom ++ "\x27), generate the next single, best follow-up question."
    , "        The question MUST be one of the core elements of a standard medical interview (HPI - History of Present Illness) to gather necessary details for the report."
    , "        "
    , "        The next specific topic to cover is: \x27" ++ next_q ++ "\x27."
    , "        "
    , "        Current Conversation History:"
    , "        ---"
    , "        " ++ format_history history
    , "        ---"
    , "        "
    , "        Generate ONLY the single question text. Do NOT include a diagnosis or medical advice."
    , "        " ]

/-- The report Task description f-string (src/app.py lines 70-98). -/
def report_task_description (context : Ctx) : String :=
  String.intercalate "\n"
    [ ""
    , "        Generate a structured, non-diagnostic symptom report based on the following conversation history."
    , "        The report must follow this exact JSON format. Only include information explicitly mentioned in the history."
    , "        "
    , "        Conversation History:"
    , "        ---"
    , "        " ++ format_history context.conversation_history
    , "        ---"
    , "        "
    , "        Return ONLY the valid JSON structure without any other text or markdown:"
    , "        \x7b"
    , "            \"report_title\": \"Symptom Interview Report for [Initial Symptom]\","
    , "            \"safety_disclaimer\": \"This is a non-diagnostic, AI-generated intake report and is not a substitute for professional medical evaluation.\","
    , "            \"sections\": ["
    , "                \x7b"
    , "                    \"heading\": \"Chief Complaint\","
    , "                    \"content\": \"Patient reports: [Initial Symptom]\""
    , "                \x7d,"
    , "                \x7b"
    , "                    \"heading\": \"History of Present Illness (HPI)\","
    , "                    \"content\": \"Organize the patient\x27s answers into a clear narrative covering: Onset, Location/Quality, Severity, Duration, Modifying Factors (what makes it better/worse), and Associated Symptoms.\""
    , "                \x7d,"
    , "                \x7b"
    , "                    \"heading\": \"Review of Systems (ROS)\","
    , "                    \"content\": \"List any other systems/symptoms mentioned by the patient.\""
    , "                \x7d"
    , "            ]"
    , "        \x7d"
    , "        " ]

/-- The next_q selection of get_next_question (src/app.py lines 130-140):
none means the closing-prompt early return. -/
def selected_topic (current_step : Nat) : Option String :=
  if current_step = 0 then
    some (interview_steps.getD 0 "")
  else if current_step ≤ interview_steps.length then
    some (interview_steps.getD (current_step - 1) "")
  else
    none

/-- get_next_question (src/app.py lines 116-166).  kick is the opaque
crew kickoff: given the task description it returns the model text or
raises (Except.error). -/
def get_next_question (kick : String → Except String String)
    (history : List Turn) (initial_symptom : Option String) : String :=
  let current_step := user_turn_count history
  match selected_topic current_step with
  | none => closing_question
  | some next_q =>
    match kick (question_task_description history initial_symptom next_q) with
    | Except.ok question_result => py_strip question_result
    | Except.error _ => error_fallback_question

/-- Split a character list at the first newline, as str.split with
maxsplit 1: none when there is no newline. -/
def split_first_newline : List Char → Option (List Char × List Char)
  | [] => none
  | c :: rest =>
    if c = '\n' then some ([], rest)
    else
      match split_first_newline rest with
      | some p => some (c :: p.1, p.2)
      | none => none

/-- Python s.split with separator newline and maxsplit 1, keeping only
the two-element outcome. -/
def py_split_once (s : String) : Option (String × String) :=
  (split_first_newline s.data).map (fun p => (String.mk p.1, String.mk p.2))

/-- Python s.rsplit with separator newline and maxsplit 1, keeping only
the two-element outcome. -/
def py_rsplit_once (s : String) : Option (String × String) :=
  (split_first_newline s.data.reverse).map
    (fun p => (String.mk p.2.reverse, String.mk p.1.reverse))

/-- Whether one character list begins with another. -/
def list_startswith : List Char → List Char → Bool
  | _, [] => true
  | [], _ :: _ => false
  | c :: cs, p :: ps => c == p && list_startswith cs ps

/-- Python str.startswith. -/
def py_startswith (s p : String) : Bool := list_startswith s.data p.data

/-- Python str.endswith. -/
def py_endswith (s p : String) : Bool := list_startswith s.data.reverse p.data.reverse

/-- The markdown fence marker of three backticks. -/
def fence_marker : String := "\x60\x60\x60"

/-- The markdown-fence cleanup of generate_report (src/app.py lines
108-109), applied to the already-stripped result text.  Accessing index
1 of a one-element split raises IndexError in Python; that surfaces
here as Except.error, to be absorbed by generate_report's handler. -/
def clean_report_text (report_text : String) : Except String String :=
  if py_startswith report_text fence_marker && py_endswith report_text fence_marker then
    match py_split_once report_text with
    | none => Except.error "list index out of range"
    | some p =>
      match py_rsplit_once p.2 with
      | none => Except.ok (py_strip p.2)
      | some q => Except.ok (py_strip q.1)
  else
    Except.ok report_text

/-- The error dict returned by generate_report's exception handler. -/
def report_error_obj (e : String) : JsonVal :=
  JsonVal.obj [("error", JsonVal.str ("Failed to generate structured report: " ++ e))]

/-- generate_report (src/app.py lines 63-113).  rkick is the opaque
report crew kickoff; parse is the opaque json.loads.  Any failure of
the kickoff, the fence cleanup, or the parse is absorbed into the
error dict. -/
def generate_report (parse : String → Except String JsonVal)
    (rkick : String → Except String String) (context : Ctx) : JsonVal :=
  match rkick (report_task_description context) with
  | Except.error e => report_error_obj e
  | Except.ok raw =>
    match clean_report_text (py_strip raw) with
    | Except.error e => report_error_obj e
    | Except.ok report_text =>
      match parse report_text with
      | Except.error e => report_error_obj e
      | Except.ok j => j

/-- Body of a successful 200 response of continue_interview: in the
source, structured_report is present (some) exactly on the completing
call, and next_question is null (none) exactly then. -/
structure ContinueOk where
  interview_id : Nat
  next_question : Option String
  is_complete : Bool
  structured_report : Option JsonVal
  history : List Turn

/-- Outcome of POST start_interview: 200 body or a 400 error body. -/
inductive StartResult where
  | ok (interview_id : Nat) (initial_question : String) (history : List Turn)
  | badRequest (error : String)

/-- Outcome of POST continue_interview: 200 body or a 400 error body. -/
inductive ContinueResult where
  | ok (r : ContinueOk)
  | badRequest (error : String)

/-- Outcome of GET get_report: 200 body or a 400 error body. -/
inductive ReportResult where
  | ok (report : JsonVal)
  | badRequest (error : String)

/-- start_interview (src/app.py lines 175-214).  The argument is the
initial_symptom field extracted from the JSON body (empty string when
the key is absent, matching data.get with default).  Returns the HTTP
outcome and the new global context. -/
def start_interview (ctx : Ctx) (initial_symptom_field : String) : StartResult × Ctx :=
  let initial_symptom := py_strip initial_symptom_field
  if initial_symptom = "" then
    (StartResult.badRequest "Please provide an initial symptom to start the interview.", ctx)
  else
    let initial_question := opening_question initial_symptom
    let newCtx : Ctx :=
      { interview_id := ctx.interview_id + 1
      , conversation_history :=
          [ { role := Role.User, text := initial_symptom }
          , { role := Role.Agent, text := initial_question } ]
      , is_complete := false
      , initial_symptom := some initial_symptom }
    (StartResult.ok newCtx.interview_id initial_question newCtx.conversation_history, newCtx)

/-- continue_interview (src/app.py lines 216-283).  qkick and rkick are
the opaque question and report crew kickoffs; parse is json.loads.
Returns the HTTP outcome and the new global context. -/
def continue_interview (parse : String → Except String JsonVal)
    (qkick rkick : String → Except String String)
    (ctx : Ctx) (user_response_field : String) : ContinueResult × Ctx :=
  if ctx.is_complete then
    (ContinueResult.badRequest "Interview is already complete. Please start a new one.", ctx)
  else
    let user_response := py_strip user_response_field
    if user_response = "" then
      (ContinueResult.badRequest "Please provide a response to continue.", ctx)
    else
      let ctx1 : Ctx :=
        { ctx with conversation_history :=
            ctx.conversation_history ++ [{ role := Role.User, text := user_response }] }
      if user_turn_count ctx1.conversation_history ≥ 5 then
        let ctx2 : Ctx := { ctx1 with is_complete := true }
        let report := generate_report parse rkick ctx2
        let ctx3 : Ctx :=
          { ctx2 with conversation_history :=
              ctx2.conversation_history ++ [{ role := Role.System, text := completion_message }] }
        (ContinueResult.ok
          { interview_id := ctx3.interview_id
          , next_question := none
          , is_complete := true
          , structured_report := some report
          , history := ctx3.conversation_history }, ctx3)
      else
        let next_question :=
          get_next_question qkick ctx1.conversation_history ctx1.initial_symptom
        let ctx2 : Ctx :=
          { ctx1 with conversation_history :=
              ctx1.conversation_history ++ [{ role := Role.Agent, text := next_question }] }
        (ContinueResult.ok
          { interview_id := ctx2.interview_id
          , next_question := some next_question
          , is_complete := false
          , structured_report := none
          , history := ctx2.conversation_history }, ctx2)

/-- get_report (src/app.py lines 285-294).  Does not mutate the context. -/
def get_report (parse : String → Except String JsonVal)
    (rkick : String → Except String String) (ctx : Ctx) : ReportResult :=
  if !ctx.is_complete then
    ReportResult.badRequest "Interview is not yet complete. Cannot generate report."
  else
    ReportResult.ok (generate_report parse rkick ctx)

/-- One API call in a process lifetime. -/
inductive Event where
  | start (s : String)
  | cont (u : String)
  | report

/-- Run a sequence of API calls against the global context, threading
the state exactly as the Flask handlers do. -/
def run_events (parse : String → Except String JsonVal)
    (qkick rkick : String → Except String String) : Ctx → List Event → Ctx
  | ctx, [] => ctx
  | ctx, Event.start s :: rest =>
    run_events parse qkick rkick (start_interview ctx s).2 rest
  | ctx, Event.cont u :: rest =>
    run_events parse qkick rkick (continue_interview parse qkick rkick ctx u).2 rest
  | ctx, Event.report :: rest => run_events parse qkick rkick ctx rest

/-- Whether an event is a start call that passes input validation. -/
def successful_start : Event → Bool
  | Event.start s => !(py_strip s == "")
  | _ => false

/-- Number of successful start calls in an event sequence. -/
def successful_starts (evs : List Event) : Nat :=
  (evs.filter successful_start).length

/-- A json.loads stand-in accepting only the empty object, for
concrete witnesses. -/
def parse_braces : String → Except String JsonVal :=
  fun t => if t = "\x7b\x7d" then Except.ok (JsonVal.obj []) else Except.error "Expecting value"

/-- A report crew stand-in returning a fenced empty JSON object, for
concrete witnesses. -/
def model_fenced : String → Except String String :=
  fun _ => Except.ok "\x60\x60\x60json\n\x7b\x7d\n\x60\x60\x60"

/-- A json.loads stand-in that always raises, for concrete witnesses. -/
def parse_fail : String → Except String JsonVal :=
  fun _ => Except.error "Expecting value: line 1 column 1 (char 0)"

/-- A crew kickoff stand-in that always raises, for concrete witnesses. -/
def model_down : String → Except String String :=
  fun _ => Except.error "model unavailable"

/-! ## Behaviour lemmas shared by the claim theorems -/

theorem user_turn_count_append (h : List Turn) (t : Turn) :
    user_turn_count (h ++ [t]) =
      user_turn_count h + (if t.role = Role.User then 1 else 0) := by
  cases t with
  | mk r x => cases r <;> simp [user_turn_count, List.filter_append]

theorem start_interview_ok (ctx : Ctx) (raw : String) (h : py_strip raw ≠ "") :
    start_interview ctx raw =
      (StartResult.ok (ctx.interview_id + 1) (opening_question (py_strip raw))
        [ { role := Role.User, text := py_strip raw }
        , { role := Role.Agent, text := opening_question (py_strip raw) } ],
       { interview_id := ctx.interview_id + 1
       , conversation_history :=
           [ { role := Role.User, text := py_strip raw }
           , { role := Role.Agent, text := opening_question (py_strip raw) } ]
       , is_complete := false
       , initial_symptom := some (py_strip raw) }) := by
  simp [start_interview, h]

/-- The question generated on a non-completing continue call: the
planner applied to the history extended with the new User turn. -/
def step_question (qkick : String → Except String String) (ctx : Ctx) (u : String) : String :=
  get_next_question qkick
    (ctx.conversation_history ++ [{ role := Role.User, text := py_strip u }])
    ctx.initial_symptom

theorem continue_interview_step (parse : String → Except String JsonVal)
    (qkick rkick : String → Except String String) (ctx : Ctx) (u : String)
    (hc : ctx.is_complete = false) (hu : py_strip u ≠ "")
    (hcount : user_turn_count ctx.conversation_history + 1 < 5) :
    continue_interview parse qkick rkick ctx u =
      (ContinueResult.ok
        { interview_id := ctx.interview_id
        , next_question := some (step_question qkick ctx u)
        , is_complete := false
        , structured_report := none
        , history := ctx.conversation_history ++
            [ { role := Role.User, text := py_strip u }
            , { role := Role.Agent, text := step_question qkick ctx u } ] },
       { ctx with conversation_history := ctx.conversation_history ++
            [ { role := Role.User, text := py_strip u }
            , { role := Role.Agent, text := step_question qkick ctx u } ] }) := by
  have hcnt : user_turn_count
      (ctx.conversation_history ++ [{ role := Role.User, text := py_strip u }]) =
      user_turn_count ctx.conversation_history + 1 := by
    rw [user_turn_count_append]; simp
  simp only [continue_interview, hc, Bool.false_eq_true, if_false, if_neg hu, hcnt]
  rw [if_neg (by omega)]
  simp [step_question, List.append_assoc]

theorem continue_interview_completing (parse : String → Except String JsonVal)
    (qkick rkick : String → Except String String) (ctx : Ctx) (u : String)
    (hc : ctx.is_complete = false) (hu : py_strip u ≠ "")
    (hcount : user_turn_count ctx.conversation_history + 1 ≥ 5) :
    continue_interview parse qkick rkick ctx u =
      (ContinueResult.ok
        { interview_id := ctx.interview_id
        , next_question := none
        , is_complete := true
        , structured_report := some (generate_report parse rkick
            { ctx with
              conversation_history :=
                ctx.conversation_history ++ [{ role := Role.User, text := py_strip u }]
              , is_complete := true })
        , history := ctx.conversation_history ++
            [ { role := Role.User, text := py_strip u }
            , { role := Role.System, text := completion_message } ] },
       { ctx with
         conversation_history := ctx.conversation_history ++
            [ { role := Role.User, text := py_strip u }
            , { role := Role.System, text := completion_message } ]
         , is_complete := true }) := by
  have hcnt : user_turn_count
      (ctx.conversation_history ++ [{ role := Role.User, text := py_strip u }]) =
      user_turn_count ctx.conversation_history + 1 := by
    rw [user_turn_count_append]; simp
  simp only [continue_interview, hc, Bool.false_eq_true, if_false, if_neg hu, hcnt]
  rw [if_pos (by omega)]
  simp [List.append_assoc]

/-! ## Claim theorems -/

/-- Claim C2: a successful start with a non-empty (after trimming)
initial symptom S replaces the global session with a fresh one whose id
is the previous id plus one (hence strictly greater), whose history is
exactly the User turn S followed by the fixed opening question
containing S, whose initial_symptom is S and whose is_complete is
false; the prior transcript is discarded entirely. -/
theorem start_interview_resets_session (ctx : Ctx) (raw : String) (h : py_strip raw ≠ "") :
    (start_interview ctx raw).1 =
      StartResult.ok (ctx.interview_id + 1) (opening_question (py_strip raw))
        [ { role := Role.User, text := py_strip raw }
        , { role := Role.Agent, text := opening_question (py_strip raw) } ] ∧
    (start_interview ctx raw).2 =
      { interview_id := ctx.interview_id + 1
      , conversation_history :=
          [ { role := Role.User, text := py_strip raw }
          , { role := Role.Agent, text := opening_question (py_strip raw) } ]
      , is_complete := false
      , initial_symptom := some (py_strip raw) } ∧
    ctx.interview_id < (start_interview ctx raw).2.interview_id ∧
    (∃ a b, opening_question (py_strip raw) = a ++ py_strip raw ++ b) := by
  rw [start_interview_ok ctx raw h]
  refine ⟨rfl, rfl, by simp, ?_⟩
  exact ⟨"Thank you for sharing your symptom: \x27",
    "\x27. To begin, can you tell me when you first noticed this symptom?", rfl⟩

/-- Witness for C2 at the concrete symptom headache. -/
theorem start_interview_resets_session_witness :
    (start_interview interview_context "headache").2 =
      { interview_id := 2
      , conversation_history :=
          [ { role := Role.User, text := "headache" }
          , { role := Role.Agent, text := opening_question "headache" } ]
      , is_complete := false
      , initial_symptom := some "headache" } := by
  have h := start_interview_resets_session interview_context "headache" (by decide)
  exact h.2.1

/-- Claim C4: once is_complete is true, any continue_interview call
returns the fixed 400 error body and leaves the whole context — history,
interview_id, is_complete, initial_symptom — unchanged. -/
theorem continue_after_complete_rejected (parse : String → Except String JsonVal)
    (qkick rkick : String → Except String String) (ctx : Ctx) (u : String)
    (h : ctx.is_complete = true) :
    continue_interview parse qkick rkick ctx u =
      (ContinueResult.badRequest "Interview is already complete. Please start a new one.",
       ctx) := by
  simp [continue_interview, h]

/-- Witness for C4 at a concrete completed context. -/
theorem continue_after_complete_rejected_witness :
    continue_interview parse_fail model_down model_down
      { interview_id := 7
      , conversation_history := [{ role := Role.User, text := "headache" }]
      , is_complete := true
      , initial_symptom := some "headache" } "more" =
    (ContinueResult.badRequest "Interview is already complete. Please start a new one.",
     { interview_id := 7
     , conversation_history := [{ role := Role.User, text := "headache" }]
     , is_complete := true
     , initial_symptom := some "headache" }) :=
  continue_after_complete_rejected parse_fail model_down model_down _ "more" rfl

/-- Claim C9: a start or continue request whose required field is empty
or whitespace-only after trimming is rejected with a 400 error body and
leaves the context unchanged, in every state. -/
theorem blank_input_rejected (parse : String → Except String JsonVal)
    (qkick rkick : String → Except String String) (ctx : Ctx) (s u : String)
    (hs : py_strip s = "") (hu : py_strip u = "") :
    start_interview ctx s =
      (StartResult.badRequest "Please provide an initial symptom to start the interview.",
       ctx) ∧
    ∃ msg, continue_interview parse qkick rkick ctx u =
      (ContinueResult.badRequest msg, ctx) := by
  constructor
  · simp [start_interview, hs]
  · cases hc : ctx.is_complete
    · exact ⟨"Please provide a response to continue.",
        by simp [continue_interview, hc, hu]⟩
    · exact ⟨"Interview is already complete. Please start a new one.",
        by simp [continue_interview, hc]⟩

/-- Witness for C9 at whitespace-only inputs. -/
theorem blank_input_rejected_witness :
    (start_interview interview_context "   ").1 =
      StartResult.badRequest "Please provide an initial symptom to start the interview." := by
  have h := blank_input_rejected parse_fail model_down model_down interview_context
    "   " " " (by decide) (by decide)
  rw [h.1]

/-- Claim C3: topic selection is a pure function of the User-turn count
n: for n between 1 and 4 it is the n-th entry (1-indexed) of the fixed
four-entry topic list; for n above 4 the fixed closing prompt is
returned without invoking the model (the result does not depend on the
model client at all); for n equal to 0 topic 1 is selected. -/
theorem topic_selection_policy (history : List Turn) (initial_symptom : Option String)
    (qkick qkick' : String → Except String String) :
    interview_steps.length = 4 ∧
    (1 ≤ user_turn_count history → user_turn_count history ≤ 4 →
      selected_topic (user_turn_count history) =
        interview_steps.get? (user_turn_count history - 1)) ∧
    (user_turn_count history > 4 →
      get_next_question qkick history initial_symptom = closing_question ∧
      get_next_question qkick history initial_symptom =
        get_next_question qkick' history initial_symptom) ∧
    selected_topic 0 = interview_steps.get? 0 := by
  refine ⟨rfl, ?_, ?_, rfl⟩
  · intro hlo hhi
    set n := user_turn_count history with hn
    clear_value n
    interval_cases n <;> rfl
  · intro hgt
    have hnone : selected_topic (user_turn_count history) = none := by
      have h0 : ¬ (user_turn_count history = 0) := by omega
      have h4 : ¬ (user_turn_count history ≤ interview_steps.length) := by
        show ¬ (user_turn_count history ≤ 4); omega
      simp only [selected_topic, if_neg h0, if_neg h4]
    constructor <;> simp [get_next_question, hnone]

/-- Witness for C3 at concrete histories with two and five User turns. -/
theorem topic_selection_policy_witness :
    selected_topic 2 = interview_steps.get? 1 ∧
    get_next_question model_down
      (List.replicate 5 { role := Role.User, text := "x" }) none = closing_question := by
  have h2 := topic_selection_policy
    (List.replicate 2 { role := Role.User, text := "x" }) none model_down model_down
  have h5 := topic_selection_policy
    (List.replicate 5 { role := Role.User, text := "x" }) none model_down model_down
  exact ⟨h2.2.1 (by decide) (by decide), (h5.2.2.1 (by decide)).1⟩

/-- Claim C7: when the model client raises, get_next_question absorbs
the failure and returns the fixed apology-and-retry string instead of
propagating it (the model is only invoked while the User-turn count is
at most the length of the topic list). -/
theorem model_error_yields_apology (history : List Turn) (initial_symptom : Option String)
    (qkick : String → Except String String) (e : String)
    (hfail : ∀ prompt, qkick prompt = Except.error e)
    (hn : user_turn_count history ≤ interview_steps.length) :
    get_next_question qkick history initial_symptom = error_fallback_question := by
  obtain ⟨q, hq⟩ : ∃ q, selected_topic (user_turn_count history) = some q := by
    by_cases h0 : user_turn_count history = 0
    · refine ⟨interview_steps.getD 0 "", ?_⟩
      simp [selected_topic, h0]
    · refine ⟨interview_steps.getD (user_turn_count history - 1) "", ?_⟩
      simp only [selected_topic, if_neg h0, if_pos hn]
  simp [get_next_question, hq, hfail]

/-- Witness for C7 at a one-turn history with a failing model client. -/
theorem model_error_yields_apology_witness :
    get_next_question model_down [{ role := Role.User, text := "headache" }]
      (some "headache") = error_fallback_question :=
  model_error_yields_apology [{ role := Role.User, text := "headache" }]
    (some "headache") model_down "model unavailable" (fun _ => rfl) (by decide)

/-- Counterexample to claim C5: a continue_interview call before any
start does not fail with an InvalidState error.  It runs against the
process-initial context, succeeds with a 200 body carrying
interview_id 1, and mutates the history. -/
theorem continue_before_start_succeeds_cex :
    (continue_interview parse_fail model_down model_down interview_context
      "I have a headache").1 =
      ContinueResult.ok
        { interview_id := 1
        , next_question := some error_fallback_question
        , is_complete := false
        , structured_report := none
        , history :=
            [ { role := Role.User, text := "I have a headache" }
            , { role := Role.Agent, text := error_fallback_question } ] } ∧
    (continue_interview parse_fail model_down model_down interview_context
      "I have a headache").2 ≠ interview_context := by
  exact ⟨rfl, by decide⟩

/-- Claim C5 amended: continue_interview before any start does not fail
with an InvalidState error; with a non-empty (after trimming) response
it succeeds against the process-initial context, returning 200 with
interview_id 1, is_complete false, and a history consisting of the new
User turn and the generated Agent turn. -/
theorem continue_before_start_behavior (parse : String → Except String JsonVal)
    (qkick rkick : String → Except String String) (u : String)
    (hu : py_strip u ≠ "") :
    (continue_interview parse qkick rkick interview_context u).1 =
      ContinueResult.ok
        { interview_id := 1
        , next_question := some (step_question qkick interview_context u)
        , is_complete := false
        , structured_report := none
        , history :=
            [ { role := Role.User, text := py_strip u }
            , { role := Role.Agent, text := step_question qkick interview_context u } ] } := by
  rw [continue_interview_step parse qkick rkick interview_context u rfl hu (by decide)]
  rfl

theorem string_data_append (x y : String) : (x ++ y).data = x.data ++ y.data := by
  rcases x with ⟨xd⟩; rcases y with ⟨yd⟩; rfl

theorem string_mk_data (s : String) : String.mk s.data = s := by
  rcases s with ⟨d⟩; rfl

theorem split_first_newline_append (xs ys : List Char) (h : '\n' ∉ xs) :
    split_first_newline (xs ++ '\n' :: ys) = some (xs, ys) := by
  induction xs with
  | nil => simp [split_first_newline]
  | cons c cs ih =>
    have hc : ¬ (c = '\n') := fun e => h (by simp [e])
    have hmem : '\n' ∉ cs := fun hm => h (List.mem_cons_of_mem _ hm)
    simp [split_first_newline, hc, ih hmem]

theorem user_turn_count_append_user_agent (H : List Turn) (x y : String) :
    user_turn_count (H ++
      [{ role := Role.User, text := x }, { role := Role.Agent, text := y }]) =
      user_turn_count H + 1 := by
  rw [show H ++ [({ role := Role.User, text := x } : Turn),
        { role := Role.Agent, text := y }] =
      (H ++ [{ role := Role.User, text := x }]) ++
        [({ role := Role.Agent, text := y } : Turn)] from by simp]
  rw [user_turn_count_append, user_turn_count_append]
  simp

theorem user_turn_count_append_user_system (H : List Turn) (x y : String) :
    user_turn_count (H ++
      [{ role := Role.User, text := x }, { role := Role.System, text := y }]) =
      user_turn_count H + 1 := by
  rw [show H ++ [({ role := Role.User, text := x } : Turn),
        { role := Role.System, text := y }] =
      (H ++ [{ role := Role.User, text := x }]) ++
        [({ role := Role.System, text := y } : Turn)] from by simp]
  rw [user_turn_count_append, user_turn_count_append]
  simp

theorem continue_under_obs (parse : String → Except String JsonVal)
    (qkick rkick : String → Except String String) (ctx : Ctx) (u : String)
    (hc : ctx.is_complete = false) (hu : py_strip u ≠ "")
    (hcount : user_turn_count ctx.conversation_history + 1 < 5) :
    ∃ a, (continue_interview parse qkick rkick ctx u).1 = ContinueResult.ok a ∧
      a.is_complete = false ∧ a.next_question = some (step_question qkick ctx u) ∧
      a.history = (continue_interview parse qkick rkick ctx u).2.conversation_history ∧
      (continue_interview parse qkick rkick ctx u).2.is_complete = false ∧
      (continue_interview parse qkick rkick ctx u).2.conversation_history.length
        = ctx.conversation_history.length + 2 ∧
      user_turn_count (continue_interview parse qkick rkick ctx u).2.conversation_history
        = user_turn_count ctx.conversation_history + 1 ∧
      (continue_interview parse qkick rkick ctx u).2.interview_id = ctx.interview_id := by
  rw [continue_interview_step parse qkick rkick ctx u hc hu hcount]
  exact ⟨_, rfl, rfl, rfl, rfl, hc, by simp,
    user_turn_count_append_user_agent _ _ _, rfl⟩

theorem continue_completing_obs (parse : String → Except String JsonVal)
    (qkick rkick : String → Except String String) (ctx : Ctx) (u : String)
    (hc : ctx.is_complete = false) (hu : py_strip u ≠ "")
    (hcount : user_turn_count ctx.conversation_history + 1 ≥ 5) :
    ∃ a rep, (continue_interview parse qkick rkick ctx u).1 = ContinueResult.ok a ∧
      a.is_complete = true ∧ a.next_question = none ∧ a.structured_report = some rep ∧
      a.history = (continue_interview parse qkick rkick ctx u).2.conversation_history ∧
      (continue_interview parse qkick rkick ctx u).2.is_complete = true ∧
      (continue_interview parse qkick rkick ctx u).2.conversation_history.length
        = ctx.conversation_history.length + 2 ∧
      user_turn_count (continue_interview parse qkick rkick ctx u).2.conversation_history
        = user_turn_count ctx.conversation_history + 1 ∧
      (continue_interview parse qkick rkick ctx u).2.interview_id = ctx.interview_id := by
  rw [continue_interview_completing parse qkick rkick ctx u hc hu hcount]
  exact ⟨_, _, rfl, rfl, rfl, rfl, rfl, rfl, by simp,
    user_turn_count_append_user_system _ _ _, rfl⟩

/-- Claim C1: from a session started with a non-empty symptom and
continued only with non-empty responses, the first three continue calls
return is_complete false with histories of length 4, 6 and 8, and the
fourth continue call — the one after which the User-turn count reaches
5 — returns is_complete true, a null next_question, a present
structured_report, and a history of length 10 (2 from start, 2 from
each of the first three continues, and a User plus a System turn from
the completing continue). -/
theorem complete_exactly_on_fifth_user_turn
    (parse : String → Except String JsonVal) (qkick rkick : String → Except String String)
    (s r1 r2 r3 r4 : String)
    (hs : py_strip s ≠ "") (h1 : py_strip r1 ≠ "") (h2 : py_strip r2 ≠ "")
    (h3 : py_strip r3 ≠ "") (h4 : py_strip r4 ≠ "")
    (c0 : Ctx) (hc0 : c0 = (start_interview interview_context s).2)
    (o1 o2 o3 o4 : ContinueResult × Ctx)
    (ho1 : o1 = continue_interview parse qkick rkick c0 r1)
    (ho2 : o2 = continue_interview parse qkick rkick o1.2 r2)
    (ho3 : o3 = continue_interview parse qkick rkick o2.2 r3)
    (ho4 : o4 = continue_interview parse qkick rkick o3.2 r4) :
    c0.conversation_history.length = 2 ∧
    user_turn_count c0.conversation_history = 1 ∧
    (∃ a, o1.1 = ContinueResult.ok a ∧ a.is_complete = false ∧ a.history.length = 4) ∧
    (∃ a, o2.1 = ContinueResult.ok a ∧ a.is_complete = false ∧ a.history.length = 6) ∧
    (∃ a, o3.1 = ContinueResult.ok a ∧ a.is_complete = false ∧ a.history.length = 8) ∧
    (∃ a rep, o4.1 = ContinueResult.ok a ∧ a.is_complete = true ∧
      a.next_question = none ∧ a.structured_report = some rep ∧
      a.history.length = 10 ∧ user_turn_count a.history = 5) ∧
    o1.2.is_complete = false ∧ o2.2.is_complete = false ∧
    o3.2.is_complete = false ∧ o4.2.is_complete = true := by
  have e0 : c0.conversation_history.length = 2 ∧
      user_turn_count c0.conversation_history = 1 ∧ c0.is_complete = false := by
    rw [hc0, start_interview_ok interview_context s hs]
    exact ⟨rfl, rfl, rfl⟩
  obtain ⟨len0, cnt0, cmp0⟩ := e0
  obtain ⟨a1, ha1, a1c, a1q, a1h, c1c, c1len, c1cnt, c1id⟩ :=
    continue_under_obs parse qkick rkick c0 r1 cmp0 h1 (by omega)
  rw [← ho1] at ha1 a1h c1c c1len c1cnt c1id
  obtain ⟨a2, ha2, a2c, a2q, a2h, c2c, c2len, c2cnt, c2id⟩ :=
    continue_under_obs parse qkick rkick o1.2 r2 c1c h2 (by omega)
  rw [← ho2] at ha2 a2h c2c c2len c2cnt c2id
  obtain ⟨a3, ha3, a3c, a3q, a3h, c3c, c3len, c3cnt, c3id⟩ :=
    continue_under_obs parse qkick rkick o2.2 r3 c2c h3 (by omega)
  rw [← ho3] at ha3 a3h c3c c3len c3cnt c3id
  obtain ⟨a4, rep, ha4, a4c, a4q, a4r, a4h, c4c, c4len, c4cnt, c4id⟩ :=
    continue_completing_obs parse qkick rkick o3.2 r4 c3c h4 (by omega)
  rw [← ho4] at ha4 a4h c4c c4len c4cnt c4id
  refine ⟨len0, cnt0, ⟨a1, ha1, a1c, ?_⟩, ⟨a2, ha2, a2c, ?_⟩, ⟨a3, ha3, a3c, ?_⟩,
    ⟨a4, rep, ha4, a4c, a4q, a4r, ?_, ?_⟩, c1c, c2c, c3c, c4c⟩
  · rw [a1h]; omega
  · rw [a2h]; omega
  · rw [a3h]; omega
  · rw [a4h]; omega
  · rw [a4h]; omega

/-- Witness for C1 at a concrete five-turn run with a failing model. -/
theorem complete_exactly_on_fifth_user_turn_witness :
    ((continue_interview parse_fail model_down model_down
      (continue_interview parse_fail model_down model_down
        (continue_interview parse_fail model_down model_down
          (continue_interview parse_fail model_down model_down
            (start_interview interview_context "headache").2 "a").2 "b").2 "c").2
              "d").2).is_complete = true := by
  obtain ⟨_, _, _, _, _, _, _, _, _, hlast⟩ :=
    complete_exactly_on_fifth_user_turn parse_fail model_down model_down
      "headache" "a" "b" "c" "d" (by decide) (by decide) (by decide) (by decide)
      (by decide) _ rfl _ _ _ _ rfl rfl rfl rfl
  exact hlast

theorem clean_report_text_fenced (a m b : String)
    (ha : ('\n') ∉ a.data) (hb : ('\n') ∉ b.data)
    (hstart : py_startswith (a ++ "\n" ++ m ++ "\n" ++ b) fence_marker = true)
    (hend : py_endswith (a ++ "\n" ++ m ++ "\n" ++ b) fence_marker = true) :
    clean_report_text (a ++ "\n" ++ m ++ "\n" ++ b) = Except.ok (py_strip m) := by
  have hdata : (a ++ "\n" ++ m ++ "\n" ++ b).data
      = a.data ++ ('\n') :: (m.data ++ ('\n') :: b.data) := by
    simp [string_data_append, List.append_assoc]
  have h1 : py_split_once (a ++ "\n" ++ m ++ "\n" ++ b)
      = some (String.mk a.data, String.mk (m.data ++ ('\n') :: b.data)) := by
    unfold py_split_once
    rw [hdata, split_first_newline_append _ _ ha]
    rfl
  have hrev : (m.data ++ ('\n') :: b.data).reverse
      = b.data.reverse ++ ('\n') :: m.data.reverse := by
    simp [List.reverse_append, List.reverse_cons, List.append_assoc]
  have h2 : py_rsplit_once (String.mk (m.data ++ ('\n') :: b.data))
      = some (String.mk m.data, String.mk b.data) := by
    unfold py_rsplit_once
    show (split_first_newline (m.data ++ ('\n') :: b.data).reverse).map _ = _
    rw [hrev, split_first_newline_append _ _ (by simpa using hb)]
    simp
  unfold clean_report_text
  rw [hstart, hend]
  simp only [Bool.and_self, if_true, h1, h2, string_mk_data]

/-- Claim C8: generate_report never raises past its boundary: if the
model call raises, or the fence cleanup raises, or the JSON parse
raises, it returns the error object carrying the human-readable cause
in the Report position; otherwise it returns the parsed document.  When
the model output both begins and ends with the fence marker, the first
and last lines are discarded before parsing. -/
theorem generate_report_never_raises (parse : String → Except String JsonVal)
    (rkick : String → Except String String) (ctx : Ctx) :
    (∀ e, rkick (report_task_description ctx) = Except.error e →
      generate_report parse rkick ctx = report_error_obj e) ∧
    (∀ raw e, rkick (report_task_description ctx) = Except.ok raw →
      clean_report_text (py_strip raw) = Except.error e →
      generate_report parse rkick ctx = report_error_obj e) ∧
    (∀ raw txt e, rkick (report_task_description ctx) = Except.ok raw →
      clean_report_text (py_strip raw) = Except.ok txt →
      parse txt = Except.error e →
      generate_report parse rkick ctx = report_error_obj e) ∧
    (∀ raw txt j, rkick (report_task_description ctx) = Except.ok raw →
      clean_report_text (py_strip raw) = Except.ok txt →
      parse txt = Except.ok j →
      generate_report parse rkick ctx = j) ∧
    (∀ a m b : String, ('\n') ∉ a.data → ('\n') ∉ b.data →
      py_startswith (a ++ "\n" ++ m ++ "\n" ++ b) fence_marker = true →
      py_endswith (a ++ "\n" ++ m ++ "\n" ++ b) fence_marker = true →
      clean_report_text (a ++ "\n" ++ m ++ "\n" ++ b) = Except.ok (py_strip m)) := by
  refine ⟨?_, ?_, ?_, ?_, clean_report_text_fenced⟩
  · intro e h; simp [generate_report, h]
  · intro raw e h hclean; simp [generate_report, h, hclean]
  · intro raw txt e h hclean hparse; simp [generate_report, h, hclean, hparse]
  · intro raw txt j h hclean hparse; simp [generate_report, h, hclean, hparse]

/-- Witness for C8: a fenced empty-object model response parses to the
empty object, and a failing model call yields the error object. -/
theorem generate_report_never_raises_witness :
    generate_report parse_braces model_fenced interview_context = JsonVal.obj [] ∧
    generate_report parse_braces model_down interview_context =
      report_error_obj "model unavailable" := by
  have h := generate_report_never_raises parse_braces model_fenced interview_context
  have h2 := generate_report_never_raises parse_braces model_down interview_context
  exact ⟨h.2.2.2.1 "\x60\x60\x60json\n\x7b\x7d\n\x60\x60\x60" "\x7b\x7d"
    (JsonVal.obj []) rfl rfl rfl, h2.1 "model unavailable" rfl⟩

/-- Counterexample to claim C6: with the interview complete, a model
response that is not JSON makes get_report return a 200 body that is
the error object — it has no sections key at all, so the response is
not a Report with exactly 3 fixed-heading sections. -/
theorem get_report_error_shape_cex :
    get_report parse_fail (fun _ => Except.ok "not json")
      { interview_id := 2
      , conversation_history := [{ role := Role.User, text := "headache" }]
      , is_complete := true
      , initial_symptom := some "headache" } =
      ReportResult.ok (report_error_obj "Expecting value: line 1 column 1 (char 0)") ∧
    json_lookup (report_error_obj "Expecting value: line 1 column 1 (char 0)")
      "sections" = none := by
  exact ⟨rfl, rfl⟩

/-- Claim C6 amended: get_report returns the fixed 400 error body
whenever is_complete is false; whenever is_complete is true it returns
200 whose body is exactly the result of generate_report, regenerated on
each call — the parsed model document when the model call, the fence
cleanup and the JSON parse all succeed, and the error object otherwise.
The three-section fixed-heading shape is requested in the prompt but
not enforced on the response. -/
theorem get_report_behavior (parse : String → Except String JsonVal)
    (rkick : String → Except String String) (ctx : Ctx) :
    (ctx.is_complete = false →
      get_report parse rkick ctx =
        ReportResult.badRequest "Interview is not yet complete. Cannot generate report.") ∧
    (ctx.is_complete = true →
      get_report parse rkick ctx = ReportResult.ok (generate_report parse rkick ctx)) := by
  constructor <;> intro h <;> simp [get_report, h]

/-- Witness for the amended C6 at the initial incomplete context. -/
theorem get_report_behavior_witness :
    get_report parse_fail model_down interview_context =
      ReportResult.badRequest "Interview is not yet complete. Cannot generate report." :=
  (get_report_behavior parse_fail model_down interview_context).1 rfl

theorem continue_preserves_id (parse : String → Except String JsonVal)
    (qkick rkick : String → Except String String) (ctx : Ctx) (u : String) :
    (continue_interview parse qkick rkick ctx u).2.interview_id = ctx.interview_id := by
  cases hc : ctx.is_complete
  · by_cases hu : py_strip u = ""
    · simp [continue_interview, hc, hu]
    · by_cases hcnt : user_turn_count (ctx.conversation_history ++
        [{ role := Role.User, text := py_strip u }]) ≥ 5
      · simp [continue_interview, hc, hu, hcnt]
      · simp [continue_interview, hc, hu, hcnt]
  · simp [continue_interview, hc]

theorem run_events_id (parse : String → Except String JsonVal)
    (qkick rkick : String → Except String String) (ctx : Ctx) (evs : List Event) :
    (run_events parse qkick rkick ctx evs).interview_id =
      ctx.interview_id + successful_starts evs := by
  induction evs generalizing ctx with
  | nil => simp [run_events, successful_starts]
  | cons e rest ih =>
    cases e with
    | start s =>
      rw [show run_events parse qkick rkick ctx (Event.start s :: rest) =
        run_events parse qkick rkick (start_interview ctx s).2 rest from rfl, ih]
      by_cases h : py_strip s = ""
      · simp [start_interview, h, successful_starts, successful_start, List.filter_cons]
      · simp [start_interview, h, successful_starts, successful_start, List.filter_cons]
        omega
    | cont u =>
      rw [show run_events parse qkick rkick ctx (Event.cont u :: rest) =
        run_events parse qkick rkick (continue_interview parse qkick rkick ctx u).2 rest
        from rfl, ih, continue_preserves_id]
      simp [successful_starts, successful_start, List.filter_cons]
    | report =>
      rw [show run_events parse qkick rkick ctx (Event.report :: rest) =
        run_events parse qkick rkick ctx rest from rfl, ih]
      simp [successful_starts, successful_start, List.filter_cons]

/-- Counterexample to claim C10: interview_id 1 is returned by an
endpoint — a continue_interview call made before any start answers 200
with interview_id 1. -/
theorem interview_id_one_returned_cex :
    (continue_interview parse_fail model_down model_down interview_context "dizzy").1 =
      ContinueResult.ok
        { interview_id := 1
        , next_question := some error_fallback_question
        , is_complete := false
        , structured_report := none
        , history :=
            [ { role := Role.User, text := "dizzy" }
            , { role := Role.Agent, text := error_fallback_question } ] } := rfl

/-- Claim C10 amended: the initial global context carries
interview_id 1; after any sequence of API calls containing k successful
starts the stored id is k + 1, and the next successful start — the
(k + 1)-th — returns interview_id k + 2; so every successful start
returns an id of at least 2, but an interview_id of 1 is still
observable through a continue_interview call made before any
successful start. -/
theorem interview_id_counting (parse : String → Except String JsonVal)
    (qkick rkick : String → Except String String) (evs : List Event) (s : String)
    (hs : py_strip s ≠ "") :
    interview_context.interview_id = 1 ∧
    (run_events parse qkick rkick interview_context evs).interview_id =
      1 + successful_starts evs ∧
    (∃ q h, (start_interview
        (run_events parse qkick rkick interview_context evs) s).1 =
      StartResult.ok (successful_starts evs + 2) q h) := by
  refine ⟨rfl, by rw [run_events_id]; rfl, ?_⟩
  have hid : (run_events parse qkick rkick interview_context evs).interview_id + 1
      = successful_starts evs + 2 := by
    rw [run_events_id]
    show 1 + successful_starts evs + 1 = successful_starts evs + 2
    omega
  rw [start_interview_ok _ s hs]
  refine ⟨opening_question (py_strip s),
    [ { role := Role.User, text := py_strip s }
    , { role := Role.Agent, text := opening_question (py_strip s) } ], ?_⟩
  rw [hid]

/-- Witness for the amended C10: after one successful start, one
continue and one rejected start, the stored id is 2 and a further
successful start returns 3. -/
theorem interview_id_counting_witness :
    (run_events parse_fail model_down model_down interview_context
      [Event.start "a", Event.cont "x", Event.start "   "]).interview_id = 2 ∧
    ∃ q hist, (start_interview (run_events parse_fail model_down model_down
      interview_context [Event.start "a", Event.cont "x", Event.start "   "]) "b").1 =
      StartResult.ok 3 q hist := by
  have h := interview_id_counting parse_fail model_down model_down
    [Event.start "a", Event.cont "x", Event.start "   "] "b" (by decide)
  refine ⟨by rw [h.2.1]; rfl, ?_⟩
  obtain ⟨q, hist, hq⟩ := h.2.2
  have hk : successful_starts [Event.start "a", Event.cont "x", Event.start "   "] + 2
      = 3 := by decide
  exact ⟨q, hist, by rw [hq, hk]⟩

/-- Witness for the amended C5 at a concrete response. -/
theorem continue_before_start_behavior_witness :
    (continue_interview parse_fail model_down model_down interview_context "hi").1 =
      ContinueResult.ok
        { interview_id := 1
        , next_question := some (step_question model_down interview_context "hi")
        , is_complete := false
        , structured_report := none
        , history :=
            [ { role := Role.User, text := "hi" }
            , { role := Role.Agent, text := step_question model_down interview_context "hi" } ] } :=
  continue_before_start_behavior parse_fail model_down model_down "hi" (by decide)

end App
